import Mathlib

/-!
Verification of the synthetic-cohort generator
(`generate_synthetic_cohort.py`) against its specification.

The script is a single deterministic pipeline over vectors of random
draws: each `np.random.*` call site is modelled as an abstract stream of
already-sampled values, and every subsequent transformation (conditional
shifts, clipping, rounding, missingness masking, table assembly) is
embedded as an executable Lean function.  Rationals stand for the
script's floating-point values; NumPy's round-half-to-even is modelled
exactly by `rhe`; a missing cell (`NaN`) is `Option.none`.
-/

namespace Cohort

/-- Truncation toward zero, the semantics of Python's `int()` /
NumPy's `astype(int)` on a real value. -/
def ratTrunc (q : ℚ) : ℤ :=
  if 0 ≤ q then ⌊q⌋ else ⌈q⌉

/-- Round half to even on a rational, the semantics of `np.round` to zero
decimals (and of `.astype(int)` applied to the result). -/
def rhe (q : ℚ) : ℤ :=
  if q - ⌊q⌋ < 1/2 then ⌊q⌋
  else if 1/2 < q - ⌊q⌋ then ⌊q⌋ + 1
  else if Even ⌊q⌋ then ⌊q⌋ else ⌊q⌋ + 1

/-- Rounding to `d` decimal places, the semantics of `np.round(x, d)`. -/
def round10 (d : ℕ) (q : ℚ) : ℚ :=
  (rhe (q * 10 ^ d) : ℚ) / 10 ^ d

/-- Clipping of a rational into `[lo, hi]`, the semantics of `np.clip`. -/
def clipQ (q lo hi : ℚ) : ℚ := min (max q lo) hi

/-- Clipping on integers (`np.clip` on an integer array). -/
def intClip (x lo hi : ℤ) : ℤ := min (max x lo) hi

/-- Clipping on naturals (`np.clip` on a count-valued array). -/
def natClip (x lo hi : ℕ) : ℕ := min (max x lo) hi

theorem floor_le_rhe (q : ℚ) : ⌊q⌋ ≤ rhe q := by
  unfold rhe; split_ifs <;> omega

theorem rhe_le_floor_add_one (q : ℚ) : rhe q ≤ ⌊q⌋ + 1 := by
  unfold rhe; split_ifs <;> omega

theorem le_rhe (q : ℚ) : q - 1/2 ≤ (rhe q : ℚ) := by
  have h1 : (⌊q⌋ : ℚ) ≤ q := Int.floor_le q
  have h2 : q < ⌊q⌋ + 1 := Int.lt_floor_add_one q
  unfold rhe
  split_ifs with a b c <;> push_cast <;> linarith

theorem rhe_le_half (q : ℚ) : (rhe q : ℚ) ≤ q + 1/2 := by
  have h1 : (⌊q⌋ : ℚ) ≤ q := Int.floor_le q
  unfold rhe
  split_ifs with a b c <;> push_cast <;> linarith

theorem rhe_intCast (k : ℤ) : rhe (k : ℚ) = k := by
  unfold rhe
  rw [Int.floor_intCast]
  simp

theorem rhe_mono {x y : ℚ} (h : x ≤ y) : rhe x ≤ rhe y := by
  have hf : ⌊x⌋ ≤ ⌊y⌋ := Int.floor_le_floor h
  rcases eq_or_lt_of_le hf with heq | hlt
  · unfold rhe
    rw [← heq]
    have hxy : x - ⌊x⌋ ≤ y - ⌊x⌋ := by linarith
    split_ifs <;> first | omega | linarith
  · calc rhe x ≤ ⌊x⌋ + 1 := rhe_le_floor_add_one x
      _ ≤ ⌊y⌋ := hlt
      _ ≤ rhe y := floor_le_rhe y

theorem int_le_rhe {a : ℤ} {q : ℚ} (h : (a : ℚ) ≤ q) : a ≤ rhe q := by
  have := rhe_mono h
  rwa [rhe_intCast] at this

theorem rhe_le_int {a : ℤ} {q : ℚ} (h : q ≤ (a : ℚ)) : rhe q ≤ a := by
  have := rhe_mono h
  rwa [rhe_intCast] at this

theorem round10_ge {d : ℕ} {lo q : ℚ} {a : ℤ} (ha : (a : ℚ) = lo * 10 ^ d)
    (h : lo ≤ q) : lo ≤ round10 d q := by
  unfold round10
  have hpos : (0 : ℚ) < 10 ^ d := by positivity
  rw [le_div_iff₀ hpos]
  have h1 : (a : ℚ) ≤ q * 10 ^ d := by
    rw [ha]; exact mul_le_mul_of_nonneg_right h (le_of_lt hpos)
  have h2 : a ≤ rhe (q * 10 ^ d) := int_le_rhe h1
  calc lo * 10 ^ d = (a : ℚ) := ha.symm
    _ ≤ (rhe (q * 10 ^ d) : ℚ) := by exact_mod_cast h2

theorem round10_le {d : ℕ} {hi q : ℚ} {b : ℤ} (hb : (b : ℚ) = hi * 10 ^ d)
    (h : q ≤ hi) : round10 d q ≤ hi := by
  unfold round10
  have hpos : (0 : ℚ) < 10 ^ d := by positivity
  rw [div_le_iff₀ hpos]
  have h1 : q * 10 ^ d ≤ (b : ℚ) := by
    rw [hb]; exact mul_le_mul_of_nonneg_right h (le_of_lt hpos)
  have h2 : rhe (q * 10 ^ d) ≤ b := rhe_le_int h1
  calc (rhe (q * 10 ^ d) : ℚ) ≤ (b : ℚ) := by exact_mod_cast h2
    _ = hi * 10 ^ d := hb

theorem round10_mono {d : ℕ} {x y : ℚ} (h : x ≤ y) :
    round10 d x ≤ round10 d y := by
  unfold round10
  have hpos : (0 : ℚ) < 10 ^ d := by positivity
  apply div_le_div_of_nonneg_right ?_ (le_of_lt hpos)
  exact_mod_cast rhe_mono (mul_le_mul_of_nonneg_right h (le_of_lt hpos))

theorem le_clipQ {q lo hi : ℚ} (h : lo ≤ hi) : lo ≤ clipQ q lo hi :=
  le_min (le_max_right q lo) h

theorem clipQ_le (q lo hi : ℚ) : clipQ q lo hi ≤ hi := min_le_right _ _

theorem clipQ_mono {x y : ℚ} (lo hi : ℚ) (h : x ≤ y) :
    clipQ x lo hi ≤ clipQ y lo hi :=
  min_le_min (max_le_max h le_rfl) le_rfl

theorem clipQ_eq_self {q lo hi : ℚ} (h1 : lo ≤ q) (h2 : q ≤ hi) :
    clipQ q lo hi = q := by
  unfold clipQ
  rw [max_eq_left h1, min_eq_left h2]

/-- Gender labels drawn at line 33 of the script. -/
inductive Gender
  | M
  | F
deriving DecidableEq

/-- Race labels drawn at line 36 of the script. -/
inductive Race
  | white
  | black
  | hispanic
  | asian
  | other
  | unknown
deriving DecidableEq

/-- Insurance labels drawn at line 43 of the script. -/
inductive Insurance
  | medicare
  | medicaid
  | other
deriving DecidableEq

/-- Marital-status labels drawn at line 49 of the script. -/
inductive Marital
  | married
  | single
  | divorced
  | widowed
  | unknown
deriving DecidableEq

/-- Admission-type labels drawn at line 62 of the script. -/
inductive AdmType
  | urgent
  | emergency
  | observation
deriving DecidableEq

/-- The columns of the assembled `DataFrame` (`ageAtAdmission` embeds the
script's `age_at_admit` column). -/
inductive Col
  | subjectId
  | hadmId
  | readmit30d
  | ageAtAdmission
  | gender
  | race
  | insurance
  | maritalStatus
  | losDays
  | admissionType
  | priorAdmits12m
  | hadIcuStay
  | icuLosDays
  | numDiagnoses
  | dxCerebralInfarction
  | dxIch
  | dxEpilepsy
  | dxParkinson
  | dxAlzheimer
  | dxMs
  | dxDiabetes
  | dxChf
  | dxCopd
  | dxCkd
  | creatinine
  | hemoglobin
  | wbc
  | glucose
  | sodium
  | potassium
  | bun
  | platelet
  | numMedications
  | onAnticoagulant
  | onStatin
  | onInsulin
  | onAntiepileptic
deriving DecidableEq

/-- The column order of the `pd.DataFrame` literal (lines 243-281). -/
def columns : List Col :=
  [.subjectId, .hadmId, .readmit30d, .ageAtAdmission, .gender, .race,
   .insurance, .maritalStatus, .losDays, .admissionType, .priorAdmits12m,
   .hadIcuStay, .icuLosDays, .numDiagnoses, .dxCerebralInfarction, .dxIch,
   .dxEpilepsy, .dxParkinson, .dxAlzheimer, .dxMs, .dxDiabetes, .dxChf,
   .dxCopd, .dxCkd, .creatinine, .hemoglobin, .wbc, .glucose, .sodium,
   .potassium, .bun, .platelet, .numMedications, .onAnticoagulant,
   .onStatin, .onInsulin, .onAntiepileptic]

/-- The declared base-missingness percentage of each column: the nine
`add_missing` calls at lines 222-232 of the script. -/
def basePct : Col → Option ℚ
  | .creatinine => some 4.5
  | .hemoglobin => some 7.2
  | .wbc => some 5.8
  | .glucose => some 12.5
  | .sodium => some 4.0
  | .potassium => some 6.1
  | .bun => some 8.3
  | .platelet => some 3.5
  | .numMedications => some 2.5
  | _ => none

/-- Whether a column receives the extra missing-at-random rule of lines
234-236 (only glucose does). -/
def marRule : Col → Bool
  | .glucose => true
  | _ => false

/-- Line 28: `np.clip(np.random.normal(67, 15, N).astype(int), 18, 99)`;
embeds the script's `age_at_admit` vector elementwise. -/
def age_at_admission (draw : ℚ) : ℤ :=
  intClip (ratTrunc draw) 18 99

/-- Line 59: `np.clip(np.random.lognormal(1.6, 0.7, N), 1.0, 60.0).round(1)`. -/
def los_days (draw : ℚ) : ℚ :=
  round10 1 (clipQ draw 1 60)

/-- Lines 75-79: zero-inflated count, `np.clip(poisson, 1, 8)` on the
non-zero branch. -/
def prior_admits_12m (isZero : Bool) (pois : ℕ) : ℕ :=
  if isZero then 0 else natClip pois 1 8

/-- Lines 83-87: `np.where(had_icu_stay == 1, np.clip(lognormal, 0.5, 30.0).round(1), 0.0)`. -/
def icu_los_days (hadIcu : Bool) (draw : ℚ) : ℚ :=
  if hadIcu then round10 1 (clipQ draw 0.5 30) else 0

/-- Line 94: `np.clip(np.random.poisson(5.5, N), 1, 20)`. -/
def num_diagnoses (draw : ℕ) : ℕ :=
  natClip draw 1 20

/-- Line 117: `np.where(dx_ckd == 1, creatinine_base * 1.8, creatinine_base)`. -/
def creatinine_pre (base : ℚ) (ckd : Bool) : ℚ :=
  if ckd then base * 1.8 else base

/-- Line 118: `np.clip(creatinine, 0.3, 8.0).round(2)`. -/
def creatinine (base : ℚ) (ckd : Bool) : ℚ :=
  round10 2 (clipQ (creatinine_pre base ckd) 0.3 8)

/-- Lines 121-123: the gender-selected base normal draw for hemoglobin. -/
def hgb_base (g : Gender) (fDraw mDraw : ℚ) : ℚ :=
  if g = Gender.F then fDraw else mDraw

/-- Line 124: `np.where(dx_ckd == 1, hgb_base - 1.5, hgb_base)`. -/
def hemoglobin_pre (base : ℚ) (ckd : Bool) : ℚ :=
  if ckd then base - 1.5 else base

/-- Line 125: `np.clip(hemoglobin, 5.0, 19.0).round(1)`. -/
def hemoglobin (base : ℚ) (ckd : Bool) : ℚ :=
  round10 1 (clipQ (hemoglobin_pre base ckd) 5 19)

/-- Line 128: `np.clip(np.random.lognormal(2.1, 0.35, N), 1.5, 35.0).round(1)`. -/
def wbc (draw : ℚ) : ℚ :=
  round10 1 (clipQ draw 1.5 35)

/-- Line 132: `np.where(dx_diabetes == 1, glucose_base * 1.3, glucose_base)`. -/
def glucose_pre (base : ℚ) (dia : Bool) : ℚ :=
  if dia then base * 1.3 else base

/-- Line 133: `np.clip(glucose, 50, 500).round(0).astype(int)`. -/
def glucose (base : ℚ) (dia : Bool) : ℤ :=
  rhe (clipQ (glucose_pre base dia) 50 500)

/-- Line 136: `np.clip(np.random.normal(139, 3.5, N), 118, 158).round(0).astype(int)`. -/
def sodium (draw : ℚ) : ℤ :=
  rhe (clipQ draw 118 158)

/-- Line 139: `np.clip(np.random.normal(4.1, 0.5, N), 2.5, 6.5).round(1)`. -/
def potassium (draw : ℚ) : ℚ :=
  round10 1 (clipQ draw 2.5 6.5)

/-- Line 142: `np.clip(creatinine * np.random.normal(12, 3, N) + 5, 5, 80).round(0).astype(int)`;
`creat` is the already clipped-and-rounded creatinine value. -/
def bun (creat noise : ℚ) : ℤ :=
  rhe (clipQ (creat * noise + 5) 5 80)

/-- Line 145: `np.clip(np.random.normal(220, 75, N), 30, 600).round(0).astype(int)`. -/
def platelet (draw : ℚ) : ℤ :=
  rhe (clipQ draw 30 600)

/-- Line 152: `np.clip(np.random.poisson(8, N), 1, 25)`. -/
def num_medications (draw : ℕ) : ℕ :=
  natClip draw 1 25

/-- Lines 157-159: insulin flag with probability selected by diabetes status. -/
def on_insulin (dia yesDraw noDraw : Bool) : Bool :=
  if dia then yesDraw else noDraw

/-- Lines 160-162: antiepileptic flag with probability selected by epilepsy status. -/
def on_antiepileptic (epi yesDraw noDraw : Bool) : Bool :=
  if epi then yesDraw else noDraw

/-- Line 215: `n_miss = int(len(arr) * pct / 100)`. -/
def nMiss (n : ℕ) (pct : ℚ) : ℕ :=
  (ratTrunc ((n * pct) / 100)).toNat

/-- Lines 213-220, `add_missing(arr, pct, name)`: a float copy of `arr`
with the cells at the sampled index set `idx` replaced by `NaN` (`none`).
The random index sample `np.random.choice(len(arr), n_miss, replace=False)`
is passed in as `idx`; its characteristic properties (indices below
`len(arr)`, pairwise distinct, `n_miss` of them) are hypotheses of the
theorems below. -/
def add_missing (arr : List ℚ) (idx : List ℕ) : List (Option ℚ) :=
  arr.mapIdx fun i a => if i ∈ idx then none else some a

/-- Line 236: `glucose_m[mar_mask] = np.nan` — masked assignment of `NaN`
at the positions where `mask` holds. -/
def applyMask (l : List (Option ℚ)) (mask : ℕ → Bool) : List (Option ℚ) :=
  l.mapIdx fun i a => if mask i then none else a

/-- One record of sampled values per `np.random.*` call site of the
script, in program order; vector draws are abstracted as streams indexed
by row number.  The Bernoulli outcome of line 201
(`np.random.binomial(1, prob_readmit, N)`) is recorded directly as
`readmitDraw`; its success probability comes from the logistic model of
lines 175-200, which none of the verified properties depend on.  The nine
`*MissIdx` lists are the samples of `np.random.choice(..., replace=False)`
made by the nine `add_missing` calls. -/
structure Draws where
  ageDraw : ℕ → ℚ
  genderDraw : ℕ → Gender
  raceDraw : ℕ → Race
  insuranceDraw : ℕ → Insurance
  maritalDraw : ℕ → Marital
  losDraw : ℕ → ℚ
  admissionTypeDraw : ℕ → AdmType
  priorZeroDraw : ℕ → Bool
  priorPoisDraw : ℕ → ℕ
  hadIcuDraw : ℕ → Bool
  icuLosDraw : ℕ → ℚ
  numDiagnosesDraw : ℕ → ℕ
  dxCerebralDraw : ℕ → Bool
  dxIchDraw : ℕ → Bool
  dxEpilepsyDraw : ℕ → Bool
  dxParkinsonDraw : ℕ → Bool
  dxAlzheimerDraw : ℕ → Bool
  dxMsDraw : ℕ → Bool
  dxDiabetesDraw : ℕ → Bool
  dxChfDraw : ℕ → Bool
  dxCopdDraw : ℕ → Bool
  dxCkdDraw : ℕ → Bool
  creatinineDraw : ℕ → ℚ
  hgbFemaleDraw : ℕ → ℚ
  hgbMaleDraw : ℕ → ℚ
  wbcDraw : ℕ → ℚ
  glucoseDraw : ℕ → ℚ
  sodiumDraw : ℕ → ℚ
  potassiumDraw : ℕ → ℚ
  bunNoiseDraw : ℕ → ℚ
  plateletDraw : ℕ → ℚ
  numMedsDraw : ℕ → ℕ
  anticoagDraw : ℕ → Bool
  statinDraw : ℕ → Bool
  insulinYesDraw : ℕ → Bool
  insulinNoDraw : ℕ → Bool
  aedYesDraw : ℕ → Bool
  aedNoDraw : ℕ → Bool
  readmitDraw : ℕ → Bool
  creatinineMissIdx : List ℕ
  hemoglobinMissIdx : List ℕ
  wbcMissIdx : List ℕ
  glucoseMissIdx : List ℕ
  sodiumMissIdx : List ℕ
  potassiumMissIdx : List ℕ
  bunMissIdx : List ℕ
  plateletMissIdx : List ℕ
  numMedsMissIdx : List ℕ
  marDraw : ℕ → Bool

/-- Line 235: `mar_mask = (dx_diabetes == 0) & (np.random.random(N) < 0.05)`. -/
def marMask (d : Draws) : ℕ → Bool :=
  fun i => !(d.dxDiabetesDraw i) && d.marDraw i

/-- The assembled `pd.DataFrame` (lines 243-281): one list per column;
the `age_at_admission` field embeds the script's `age_at_admit` column,
and a `none` entry in an `Option`-valued lab/medication column is a
`NaN` cell. -/
structure Table where
  subject_id : List ℕ
  hadm_id : List ℕ
  readmit_30d : List Bool
  age_at_admission : List ℤ
  gender : List Gender
  race : List Race
  insurance : List Insurance
  marital_status : List Marital
  los_days : List ℚ
  admission_type : List AdmType
  prior_admits_12m : List ℕ
  had_icu_stay : List Bool
  icu_los_days : List ℚ
  num_diagnoses : List ℕ
  dx_cerebral_infarction : List Bool
  dx_ich : List Bool
  dx_epilepsy : List Bool
  dx_parkinson : List Bool
  dx_alzheimer : List Bool
  dx_ms : List Bool
  dx_diabetes : List Bool
  dx_chf : List Bool
  dx_copd : List Bool
  dx_ckd : List Bool
  creatinine : List (Option ℚ)
  hemoglobin : List (Option ℚ)
  wbc : List (Option ℚ)
  glucose : List (Option ℚ)
  sodium : List (Option ℚ)
  potassium : List (Option ℚ)
  bun : List (Option ℚ)
  platelet : List (Option ℚ)
  num_medications : List (Option ℚ)
  on_anticoagulant : List Bool
  on_statin : List Bool
  on_insulin : List Bool
  on_antiepileptic : List Bool

/-- The whole generation pipeline: given the record of sampled values, it
produces the assembled table exactly as lines 25-281 of the script do. -/
def generate (n : ℕ) (d : Draws) : Table where
  subject_id := (List.range n).map fun i => 100001 + i
  hadm_id := (List.range n).map fun i => 200001 + i
  readmit_30d := (List.range n).map fun i => d.readmitDraw i
  age_at_admission := (List.range n).map fun i => age_at_admission (d.ageDraw i)
  gender := (List.range n).map fun i => d.genderDraw i
  race := (List.range n).map fun i => d.raceDraw i
  insurance := (List.range n).map fun i => d.insuranceDraw i
  marital_status := (List.range n).map fun i => d.maritalDraw i
  los_days := (List.range n).map fun i => los_days (d.losDraw i)
  admission_type := (List.range n).map fun i => d.admissionTypeDraw i
  prior_admits_12m := (List.range n).map fun i =>
    prior_admits_12m (d.priorZeroDraw i) (d.priorPoisDraw i)
  had_icu_stay := (List.range n).map fun i => d.hadIcuDraw i
  icu_los_days := (List.range n).map fun i =>
    icu_los_days (d.hadIcuDraw i) (d.icuLosDraw i)
  num_diagnoses := (List.range n).map fun i => num_diagnoses (d.numDiagnosesDraw i)
  dx_cerebral_infarction := (List.range n).map fun i => d.dxCerebralDraw i
  dx_ich := (List.range n).map fun i => d.dxIchDraw i
  dx_epilepsy := (List.range n).map fun i => d.dxEpilepsyDraw i
  dx_parkinson := (List.range n).map fun i => d.dxParkinsonDraw i
  dx_alzheimer := (List.range n).map fun i => d.dxAlzheimerDraw i
  dx_ms := (List.range n).map fun i => d.dxMsDraw i
  dx_diabetes := (List.range n).map fun i => d.dxDiabetesDraw i
  dx_chf := (List.range n).map fun i => d.dxChfDraw i
  dx_copd := (List.range n).map fun i => d.dxCopdDraw i
  dx_ckd := (List.range n).map fun i => d.dxCkdDraw i
  creatinine := add_missing
    ((List.range n).map fun i => creatinine (d.creatinineDraw i) (d.dxCkdDraw i))
    d.creatinineMissIdx
  hemoglobin := add_missing
    ((List.range n).map fun i =>
      hemoglobin (hgb_base (d.genderDraw i) (d.hgbFemaleDraw i) (d.hgbMaleDraw i))
        (d.dxCkdDraw i))
    d.hemoglobinMissIdx
  wbc := add_missing ((List.range n).map fun i => wbc (d.wbcDraw i)) d.wbcMissIdx
  glucose := applyMask
    (add_missing
      ((List.range n).map fun i =>
        ((glucose (d.glucoseDraw i) (d.dxDiabetesDraw i) : ℤ) : ℚ))
      d.glucoseMissIdx)
    (marMask d)
  sodium := add_missing
    ((List.range n).map fun i => ((sodium (d.sodiumDraw i) : ℤ) : ℚ))
    d.sodiumMissIdx
  potassium := add_missing
    ((List.range n).map fun i => potassium (d.potassiumDraw i))
    d.potassiumMissIdx
  bun := add_missing
    ((List.range n).map fun i =>
      ((bun (creatinine (d.creatinineDraw i) (d.dxCkdDraw i)) (d.bunNoiseDraw i) : ℤ) : ℚ))
    d.bunMissIdx
  platelet := add_missing
    ((List.range n).map fun i => ((platelet (d.plateletDraw i) : ℤ) : ℚ))
    d.plateletMissIdx
  num_medications := add_missing
    ((List.range n).map fun i => ((num_medications (d.numMedsDraw i) : ℕ) : ℚ))
    d.numMedsMissIdx
  on_anticoagulant := (List.range n).map fun i => d.anticoagDraw i
  on_statin := (List.range n).map fun i => d.statinDraw i
  on_insulin := (List.range n).map fun i =>
    on_insulin (d.dxDiabetesDraw i) (d.insulinYesDraw i) (d.insulinNoDraw i)
  on_antiepileptic := (List.range n).map fun i =>
    on_antiepileptic (d.dxEpilepsyDraw i) (d.aedYesDraw i) (d.aedNoDraw i)

/-- Length of a table column, selected by column name. -/
def colLength (t : Table) : Col → ℕ
  | .subjectId => t.subject_id.length
  | .hadmId => t.hadm_id.length
  | .readmit30d => t.readmit_30d.length
  | .ageAtAdmission => t.age_at_admission.length
  | .gender => t.gender.length
  | .race => t.race.length
  | .insurance => t.insurance.length
  | .maritalStatus => t.marital_status.length
  | .losDays => t.los_days.length
  | .admissionType => t.admission_type.length
  | .priorAdmits12m => t.prior_admits_12m.length
  | .hadIcuStay => t.had_icu_stay.length
  | .icuLosDays => t.icu_los_days.length
  | .numDiagnoses => t.num_diagnoses.length
  | .dxCerebralInfarction => t.dx_cerebral_infarction.length
  | .dxIch => t.dx_ich.length
  | .dxEpilepsy => t.dx_epilepsy.length
  | .dxParkinson => t.dx_parkinson.length
  | .dxAlzheimer => t.dx_alzheimer.length
  | .dxMs => t.dx_ms.length
  | .dxDiabetes => t.dx_diabetes.length
  | .dxChf => t.dx_chf.length
  | .dxCopd => t.dx_copd.length
  | .dxCkd => t.dx_ckd.length
  | .creatinine => t.creatinine.length
  | .hemoglobin => t.hemoglobin.length
  | .wbc => t.wbc.length
  | .glucose => t.glucose.length
  | .sodium => t.sodium.length
  | .potassium => t.potassium.length
  | .bun => t.bun.length
  | .platelet => t.platelet.length
  | .numMedications => t.num_medications.length
  | .onAnticoagulant => t.on_anticoagulant.length
  | .onStatin => t.on_statin.length
  | .onInsulin => t.on_insulin.length
  | .onAntiepileptic => t.on_antiepileptic.length

/-- Number of missing (`NaN`) cells in a table column.  Columns that are
not `Option`-valued are serialized from plain integer/label vectors and
cannot contain a missing cell, so their count is 0 by construction. -/
def missingCount (t : Table) : Col → ℕ
  | .creatinine => t.creatinine.countP (fun o => o.isNone)
  | .hemoglobin => t.hemoglobin.countP (fun o => o.isNone)
  | .wbc => t.wbc.countP (fun o => o.isNone)
  | .glucose => t.glucose.countP (fun o => o.isNone)
  | .sodium => t.sodium.countP (fun o => o.isNone)
  | .potassium => t.potassium.countP (fun o => o.isNone)
  | .bun => t.bun.countP (fun o => o.isNone)
  | .platelet => t.platelet.countP (fun o => o.isNone)
  | .numMedications => t.num_medications.countP (fun o => o.isNone)
  | _ => 0

theorem le_intClip {x lo hi : ℤ} (h : lo ≤ hi) : lo ≤ intClip x lo hi :=
  le_min (le_max_right x lo) h

theorem intClip_le (x lo hi : ℤ) : intClip x lo hi ≤ hi := min_le_right _ _

theorem le_natClip {x lo hi : ℕ} (h : lo ≤ hi) : lo ≤ natClip x lo hi :=
  le_min (le_max_right x lo) h

theorem natClip_le (x lo hi : ℕ) : natClip x lo hi ≤ hi := min_le_right _ _

theorem countP_isNone_mapIdx {α β : Type} (arr : List α) (g : ℕ → α → Option β)
    (p : ℕ → Bool) (hg : ∀ i a, (g i a).isNone = p i) :
    (arr.mapIdx g).countP (fun o => o.isNone)
      = (List.range arr.length).countP p := by
  induction arr generalizing g p with
  | nil => rfl
  | cons a l ih =>
    rw [List.mapIdx_cons, List.countP_cons, List.length_cons,
        List.range_succ_eq_map, List.countP_cons, List.countP_map,
        ih (fun i b => g (i + 1) b) (fun i => p (i + 1)) (fun i b => hg (i + 1) b)]
    simp only [Function.comp, hg 0 a]
    rfl

theorem countP_isNone_mapIdx2 {α β γ : Type} (arr : List α) (g : ℕ → α → Option β)
    (f : ℕ → Option β → Option γ) (p : ℕ → Bool)
    (hf : ∀ i a, (f i (g i a)).isNone = p i) :
    ((arr.mapIdx g).mapIdx f).countP (fun o => o.isNone)
      = (List.range arr.length).countP p := by
  induction arr generalizing g f p with
  | nil => rfl
  | cons a l ih =>
    rw [List.mapIdx_cons, List.mapIdx_cons, List.countP_cons, List.length_cons,
        List.range_succ_eq_map, List.countP_cons, List.countP_map,
        ih (fun i b => g (i + 1) b) (fun i o => f (i + 1) o) (fun i => p (i + 1))
          (fun i b => hf (i + 1) b)]
    simp only [Function.comp, hf 0 a]
    rfl

theorem count_add_missing (arr : List ℚ) (idx : List ℕ) :
    (add_missing arr idx).countP (fun o => o.isNone)
      = (List.range arr.length).countP (fun i => decide (i ∈ idx)) := by
  apply countP_isNone_mapIdx
  intro i a
  by_cases h : i ∈ idx <;> simp [h]

theorem count_applyMask_add_missing (arr : List ℚ) (idx : List ℕ) (mask : ℕ → Bool) :
    (applyMask (add_missing arr idx) mask).countP (fun o => o.isNone)
      = (List.range arr.length).countP (fun i => decide (i ∈ idx) || mask i) := by
  apply countP_isNone_mapIdx2
  intro i a
  by_cases h : i ∈ idx <;> by_cases hm : mask i <;> simp [h, hm]

theorem countP_range_mem {n : ℕ} {idx : List ℕ} (hnd : idx.Nodup)
    (hlt : ∀ i ∈ idx, i < n) :
    (List.range n).countP (fun i => decide (i ∈ idx)) = idx.length := by
  rw [List.countP_eq_length_filter]
  have hperm : ((List.range n).filter (fun i => decide (i ∈ idx))).Perm idx := by
    apply (List.perm_ext_iff_of_nodup ((List.nodup_range n).filter _) hnd).mpr
    intro a
    simp only [List.mem_filter, List.mem_range, decide_eq_true_eq]
    exact ⟨fun h => h.2, fun h => ⟨hlt a h, h⟩⟩
  exact hperm.length_eq

theorem countP_or_split (l : List ℕ) (p q : ℕ → Bool) :
    l.countP (fun i => p i || q i)
      = l.countP p + l.countP (fun i => q i && !p i) := by
  induction l with
  | nil => rfl
  | cons a l ih =>
    rw [List.countP_cons, List.countP_cons, List.countP_cons, ih]
    cases hp : p a <;> cases hq : q a <;> simp [hp, hq] <;> omega

theorem int_rhe_clip_ge {q lo hi : ℚ} {a : ℤ} (ha : (a : ℚ) = lo) (h : lo ≤ hi) :
    a ≤ rhe (clipQ q lo hi) := by
  apply int_le_rhe
  rw [ha]
  exact le_clipQ h

theorem int_rhe_clip_le {q lo hi : ℚ} {b : ℤ} (hb : (b : ℚ) = hi) :
    rhe (clipQ q lo hi) ≤ b := by
  apply rhe_le_int
  rw [hb]
  exact clipQ_le q lo hi

/-- A fixed record of draws (all streams constant, all index samples
empty), used to instantiate universally quantified theorems at a concrete
input. -/
def d0 : Draws where
  ageDraw := fun _ => 0
  genderDraw := fun _ => Gender.M
  raceDraw := fun _ => Race.white
  insuranceDraw := fun _ => Insurance.medicare
  maritalDraw := fun _ => Marital.married
  losDraw := fun _ => 0
  admissionTypeDraw := fun _ => AdmType.urgent
  priorZeroDraw := fun _ => true
  priorPoisDraw := fun _ => 0
  hadIcuDraw := fun _ => false
  icuLosDraw := fun _ => 0
  numDiagnosesDraw := fun _ => 0
  dxCerebralDraw := fun _ => false
  dxIchDraw := fun _ => false
  dxEpilepsyDraw := fun _ => false
  dxParkinsonDraw := fun _ => false
  dxAlzheimerDraw := fun _ => false
  dxMsDraw := fun _ => false
  dxDiabetesDraw := fun _ => false
  dxChfDraw := fun _ => false
  dxCopdDraw := fun _ => false
  dxCkdDraw := fun _ => false
  creatinineDraw := fun _ => 1
  hgbFemaleDraw := fun _ => 12
  hgbMaleDraw := fun _ => 14
  wbcDraw := fun _ => 7
  glucoseDraw := fun _ => 120
  sodiumDraw := fun _ => 139
  potassiumDraw := fun _ => 4
  bunNoiseDraw := fun _ => 12
  plateletDraw := fun _ => 220
  numMedsDraw := fun _ => 8
  anticoagDraw := fun _ => false
  statinDraw := fun _ => false
  insulinYesDraw := fun _ => false
  insulinNoDraw := fun _ => false
  aedYesDraw := fun _ => false
  aedNoDraw := fun _ => false
  readmitDraw := fun _ => false
  creatinineMissIdx := []
  hemoglobinMissIdx := []
  wbcMissIdx := []
  glucoseMissIdx := []
  sodiumMissIdx := []
  potassiumMissIdx := []
  bunMissIdx := []
  plateletMissIdx := []
  numMedsMissIdx := []
  marDraw := fun _ => false

/-- A draw record for `N = 2400` in which the base glucose index sample
(the first 300 rows) overlaps the rows matching the MAR condition (row 0,
non-diabetic and selected by the 5 percent draw). -/
def d4 : Draws :=
  { d0 with
    dxDiabetesDraw := fun _ => false
    glucoseMissIdx := List.range 300
    marDraw := fun i => decide (i = 0) }

/-- Claim C1: for every row, every clipped numeric field lies within its
documented closed range — age in `[18,99]`, length of stay in `[1,60]`,
diagnoses in `[1,20]`, creatinine in `[0.3,8]`, hemoglobin in `[5,19]`,
WBC in `[1.5,35]`, glucose in `[50,500]`, sodium in `[118,158]`,
potassium in `[2.5,6.5]`, BUN in `[5,80]`, platelet in `[30,600]`,
medications in `[1,25]` — for arbitrary underlying draws and comorbidity
flags, with the per-field rounding (applied after clipping) never moving
the value outside the range. -/
theorem claim_C1_clipped_field_ranges
    (da dl dcr dhb dw dg ds dk dbc dbn dpl : ℚ) (dnd dnm : ℕ) (ckd dia : Bool) :
    (18 ≤ age_at_admission da ∧ age_at_admission da ≤ 99)
    ∧ (1 ≤ los_days dl ∧ los_days dl ≤ 60)
    ∧ (1 ≤ num_diagnoses dnd ∧ num_diagnoses dnd ≤ 20)
    ∧ (0.3 ≤ creatinine dcr ckd ∧ creatinine dcr ckd ≤ 8)
    ∧ (5 ≤ hemoglobin dhb ckd ∧ hemoglobin dhb ckd ≤ 19)
    ∧ (1.5 ≤ wbc dw ∧ wbc dw ≤ 35)
    ∧ (50 ≤ glucose dg dia ∧ glucose dg dia ≤ 500)
    ∧ (118 ≤ sodium ds ∧ sodium ds ≤ 158)
    ∧ (2.5 ≤ potassium dk ∧ potassium dk ≤ 6.5)
    ∧ (5 ≤ bun dbc dbn ∧ bun dbc dbn ≤ 80)
    ∧ (30 ≤ platelet dpl ∧ platelet dpl ≤ 600)
    ∧ (1 ≤ num_medications dnm ∧ num_medications dnm ≤ 25) := by
  refine ⟨⟨le_intClip (by norm_num), intClip_le _ _ _⟩,
    ⟨round10_ge (a := 10) (by norm_num) (le_clipQ (by norm_num)),
     round10_le (b := 600) (by norm_num) (clipQ_le _ _ _)⟩,
    ⟨le_natClip (by norm_num), natClip_le _ _ _⟩,
    ⟨round10_ge (a := 30) (by norm_num) (le_clipQ (by norm_num)),
     round10_le (b := 800) (by norm_num) (clipQ_le _ _ _)⟩,
    ⟨round10_ge (a := 50) (by norm_num) (le_clipQ (by norm_num)),
     round10_le (b := 190) (by norm_num) (clipQ_le _ _ _)⟩,
    ⟨round10_ge (a := 15) (by norm_num) (le_clipQ (by norm_num)),
     round10_le (b := 350) (by norm_num) (clipQ_le _ _ _)⟩,
    ⟨int_rhe_clip_ge (by norm_num) (by norm_num), int_rhe_clip_le (by norm_num)⟩,
    ⟨int_rhe_clip_ge (by norm_num) (by norm_num), int_rhe_clip_le (by norm_num)⟩,
    ⟨round10_ge (a := 25) (by norm_num) (le_clipQ (by norm_num)),
     round10_le (b := 65) (by norm_num) (clipQ_le _ _ _)⟩,
    ⟨int_rhe_clip_ge (by norm_num) (by norm_num), int_rhe_clip_le (by norm_num)⟩,
    ⟨int_rhe_clip_ge (by norm_num) (by norm_num), int_rhe_clip_le (by norm_num)⟩,
    ⟨le_natClip (by norm_num), natClip_le _ _ _⟩⟩

/-- Claim C5: the conditional lab adjustments are deterministic and apply
only to rows with the corresponding flag set — with CKD the pre-clip
creatinine is the base draw times 1.8 and the pre-clip hemoglobin is the
base draw minus 1.5, with diabetes the pre-clip glucose is the base draw
times 1.3, and with the flag unset each equals the unmodified base draw;
clipping and rounding are applied after the adjustment. -/
theorem claim_C5_conditional_adjustments (base : ℚ) :
    creatinine_pre base true = base * 1.8
    ∧ creatinine_pre base false = base
    ∧ hemoglobin_pre base true = base - 1.5
    ∧ hemoglobin_pre base false = base
    ∧ glucose_pre base true = base * 1.3
    ∧ glucose_pre base false = base
    ∧ (∀ ckd : Bool,
        creatinine base ckd = round10 2 (clipQ (creatinine_pre base ckd) 0.3 8))
    ∧ (∀ ckd : Bool,
        hemoglobin base ckd = round10 1 (clipQ (hemoglobin_pre base ckd) 5 19))
    ∧ (∀ dia : Bool,
        glucose base dia = rhe (clipQ (glucose_pre base dia) 50 500)) :=
  ⟨rfl, rfl, rfl, rfl, rfl, rfl, fun _ => rfl, fun _ => rfl, fun _ => rfl⟩

/-- Claim C7 counterexample: at base draw 25 the shifted value 23.5 is
not clipped at the lower bound, yet the final hemoglobin with the CKD
flag set equals the final hemoglobin without it (both clip to 19), so the
claimed strict inequality fails. -/
theorem claim_C7_counterexample :
    5 < hemoglobin_pre 25 true ∧ hemoglobin 25 true = hemoglobin 25 false := by
  have key : ∀ c : Bool, clipQ (hemoglobin_pre 25 c) 5 19 = 19 := by
    intro c
    cases c <;> norm_num [hemoglobin_pre, clipQ, min_def, max_def]
  constructor
  · norm_num [hemoglobin_pre]
  · show round10 1 (clipQ (hemoglobin_pre 25 true) 5 19)
        = round10 1 (clipQ (hemoglobin_pre 25 false) 5 19)
    rw [key true, key false]

/-- Claim C7 (amended): for any fixed base hemoglobin draw the final
value with the CKD flag set is less than or equal to the final value
without it, and strictly lower whenever the shifted value is not clipped
at the lower bound and the unshifted value is not clipped at the upper
bound. -/
theorem claim_C7_amended_ckd_hemoglobin_shift (b : ℚ) :
    hemoglobin b true ≤ hemoglobin b false
    ∧ (5 ≤ hemoglobin_pre b true → b ≤ 19 →
        hemoglobin b true < hemoglobin b false) := by
  constructor
  · apply round10_mono
    apply clipQ_mono
    show b - 1.5 ≤ b
    linarith
  · intro h1 h2
    have hpt : hemoglobin_pre b true = b - 1.5 := rfl
    have hpf : hemoglobin_pre b false = b := rfl
    rw [hpt] at h1
    have e1 : clipQ (hemoglobin_pre b true) 5 19 = b - 1.5 := by
      rw [hpt]
      exact clipQ_eq_self h1 (by linarith)
    have e2 : clipQ (hemoglobin_pre b false) 5 19 = b := by
      rw [hpf]
      exact clipQ_eq_self (by linarith) h2
    show round10 1 (clipQ (hemoglobin_pre b true) 5 19)
        < round10 1 (clipQ (hemoglobin_pre b false) 5 19)
    rw [e1, e2]
    unfold round10
    have l1 : (rhe ((b - 1.5) * 10 ^ 1) : ℚ) ≤ (b - 1.5) * 10 ^ 1 + 1/2 :=
      rhe_le_half _
    have l2 : b * 10 ^ 1 - 1/2 ≤ (rhe (b * 10 ^ 1) : ℚ) := le_rhe _
    have hlt : (rhe ((b - 1.5) * 10 ^ 1) : ℚ) < (rhe (b * 10 ^ 1) : ℚ) := by
      push_cast at l1 l2 ⊢
      linarith
    exact (div_lt_div_iff_of_pos_right (by norm_num)).mpr hlt

/-- Claim C7 witness: at base draw 12 the CKD-flagged hemoglobin is
strictly lower than the unflagged one. -/
theorem claim_C7_amended_witness :
    hemoglobin 12 true ≤ hemoglobin 12 false
    ∧ hemoglobin 12 true < hemoglobin 12 false := by
  have h := claim_C7_amended_ckd_hemoglobin_shift 12
  exact ⟨h.1, h.2 (by norm_num [hemoglobin_pre]) (by norm_num)⟩

/-- Claim C9: `icu_los_days` is exactly 0 when the ICU flag is unset,
lies in `[0.5, 30]` when it is set, and is positive exactly on flagged
rows. -/
theorem claim_C9_icu_los (dr : ℚ) :
    icu_los_days false dr = 0
    ∧ ((0.5 : ℚ) ≤ icu_los_days true dr ∧ icu_los_days true dr ≤ 30)
    ∧ (∀ icu : Bool, 0 < icu_los_days icu dr ↔ icu = true) := by
  have hlb : (0.5 : ℚ) ≤ icu_los_days true dr :=
    round10_ge (a := 5) (by norm_num) (le_clipQ (by norm_num))
  have hub : icu_los_days true dr ≤ 30 :=
    round10_le (b := 300) (by norm_num) (clipQ_le _ _ _)
  refine ⟨rfl, ⟨hlb, hub⟩, ?_⟩
  intro icu
  cases icu
  · simp [icu_los_days]
  · exact ⟨fun _ => rfl, fun _ => by linarith⟩

/-- Claim C9 witness: a flagged row with draw 3 has positive ICU length
of stay. -/
theorem claim_C9_witness : 0 < icu_los_days true 3 :=
  ((claim_C9_icu_los 3).2.2 true).mpr rfl

/-- Claim C10: `add_missing` returns a list of the same length as its
input in which every entry at an index not in the sampled set equals the
original value; the input itself is a separate, unmodified value (the
embedding is pure, mirroring the `.copy()` at line 217). -/
theorem claim_C10_add_missing_frame (arr : List ℚ) (idx : List ℕ) :
    (add_missing arr idx).length = arr.length
    ∧ ∀ (i : ℕ) (h : i < arr.length) (h' : i < (add_missing arr idx).length),
        i ∉ idx → (add_missing arr idx).get ⟨i, h'⟩ = some (arr.get ⟨i, h⟩) := by
  constructor
  · simp [add_missing]
  · intro i h h' hni
    exact (List.get_mapIdx arr _ i h h').trans (if_neg hni)

/-- Claim C10 witness: on a concrete two-element list with index 0
sampled, the length is preserved and the unsampled cell keeps its value. -/
theorem claim_C10_witness :
    (add_missing [1, 2] [0]).length = 2
    ∧ (add_missing [1, 2] [0]).get ⟨1, by decide⟩ = some 2 := by
  have h := claim_C10_add_missing_frame [1, 2] [0]
  refine ⟨h.1, ?_⟩
  have h2 := h.2 1 (by norm_num) (by rw [h.1]; norm_num) (by decide)
  simpa using h2

/-- Claim C3: when the index sample has the properties `np.random.choice`
with `replace=False` guarantees (distinct indices below the array length,
`n_miss` of them), `add_missing` marks exactly
`n_miss = int(len(arr) * pct / 100)` cells missing; and for hemoglobin at
7.2 percent of `N = 2400` that count is 172. -/
theorem claim_C3_base_missingness_count (arr : List ℚ) (pct : ℚ) (idx : List ℕ)
    (hnd : idx.Nodup) (hlt : ∀ i ∈ idx, i < arr.length)
    (hlen : idx.length = nMiss arr.length pct) :
    (add_missing arr idx).countP (fun o => o.isNone) = nMiss arr.length pct
    ∧ nMiss 2400 7.2 = 172 := by
  constructor
  · rw [count_add_missing, countP_range_mem hnd hlt, hlen]
  · (norm_num [nMiss, ratTrunc]; rfl)

/-- Claim C3 witness: a ten-element array at 20 percent with the sampled
index set `{0, 3}` gets exactly `nMiss 10 20 = 2` missing cells. -/
theorem claim_C3_witness :
    (add_missing (List.replicate 10 0) [0, 3]).countP (fun o => o.isNone)
      = nMiss 10 20 :=
  (claim_C3_base_missingness_count (List.replicate 10 0) 20 [0, 3]
    (by decide) (by decide)
    (by show 2 = nMiss 10 20
        (norm_num [nMiss, ratTrunc]; rfl))).1

/-- Claim C2 counterexample: the number of columns the script applies the
base fixed-percentage missingness rule to is not eight — the eight lab
columns and `num_medications` (line 232) all receive an `add_missing`
call, so it is nine. -/
theorem claim_C2_counterexample :
    (columns.filter fun c => (basePct c).isSome).length ≠ 8 := by
  decide

/-- Claim C2 (amended): exactly nine numeric/count fields — the eight lab
fields plus `num_medications` — have the base fixed-percentage
missingness rule applied, and every column without a declared rule has
zero missing values in the assembled table. -/
theorem claim_C2_amended_nine_missingness_fields :
    (columns.filter fun c => (basePct c).isSome).length = 9
    ∧ (columns.filter fun c => (basePct c).isSome)
        = [.creatinine, .hemoglobin, .wbc, .glucose, .sodium, .potassium,
           .bun, .platelet, .numMedications]
    ∧ ∀ (n : ℕ) (d : Draws) (c : Col), basePct c = none →
        missingCount (generate n d) c = 0 := by
  refine ⟨by decide, by decide, ?_⟩
  intro n d c hc
  cases c <;> first | rfl | simp [basePct] at hc

/-- Claim C2 witness: a concrete rule-free column (`subject_id`) of a
concrete generated table has zero missing values. -/
theorem claim_C2_amended_witness :
    missingCount (generate 2400 d0) Col.subjectId = 0 :=
  claim_C2_amended_nine_missingness_fields.2.2 2400 d0 Col.subjectId rfl

theorem countGlucoseMissing (n : ℕ) (d : Draws) :
    missingCount (generate n d) Col.glucose
      = (List.range n).countP
          (fun i => decide (i ∈ d.glucoseMissIdx) || marMask d i) := by
  have harr : ((List.range n).map fun i =>
      ((glucose (d.glucoseDraw i) (d.dxDiabetesDraw i) : ℤ) : ℚ)).length = n := by
    simp
  show (applyMask (add_missing ((List.range n).map fun i =>
      ((glucose (d.glucoseDraw i) (d.dxDiabetesDraw i) : ℤ) : ℚ))
      d.glucoseMissIdx) (marMask d)).countP (fun o => o.isNone) = _
  rw [count_applyMask_add_missing, harr]

/-- Claim C4 (amended): under the `np.random.choice` sample properties
for the glucose base rule, the total number of missing glucose cells is
`nMiss n 12.5` plus the number of rows matching the MAR condition that
the base rule had not already selected (the two sets are combined by
logical OR, so overlapping rows are not counted twice); diabetic rows
never match the MAR mask, and glucose is the only column with the extra
rule. -/
theorem claim_C4_amended_glucose_missingness (n : ℕ) (d : Draws)
    (hnd : d.glucoseMissIdx.Nodup)
    (hlt : ∀ i ∈ d.glucoseMissIdx, i < n)
    (hlen : d.glucoseMissIdx.length = nMiss n 12.5) :
    missingCount (generate n d) Col.glucose
      = nMiss n 12.5
        + (List.range n).countP
            (fun i => marMask d i && !(decide (i ∈ d.glucoseMissIdx)))
    ∧ (∀ i, d.dxDiabetesDraw i = true → marMask d i = false)
    ∧ (columns.filter fun c => marRule c) = [Col.glucose] := by
  refine ⟨?_, ?_, by decide⟩
  · calc missingCount (generate n d) Col.glucose
        = (List.range n).countP
            (fun i => decide (i ∈ d.glucoseMissIdx) || marMask d i) :=
          countGlucoseMissing n d
      _ = (List.range n).countP (fun i => decide (i ∈ d.glucoseMissIdx))
            + (List.range n).countP
                (fun i => marMask d i && !(decide (i ∈ d.glucoseMissIdx))) :=
          countP_or_split _ _ _
      _ = nMiss n 12.5
            + (List.range n).countP
                (fun i => marMask d i && !(decide (i ∈ d.glucoseMissIdx))) := by
          rw [countP_range_mem hnd hlt, hlen]
  · intro i hdia
    simp [marMask, hdia]

/-- Claim C4 witness: at `n = 4` with the empty index sample (valid since
`nMiss 4 12.5 = 0`) the glucose missingness count equals the amended
formula. -/
theorem claim_C4_amended_witness :
    missingCount (generate 4 d0) Col.glucose
      = nMiss 4 12.5
        + (List.range 4).countP
            (fun i => marMask d0 i && !(decide (i ∈ d0.glucoseMissIdx))) :=
  (claim_C4_amended_glucose_missingness 4 d0 List.nodup_nil
    (fun i hi => absurd hi (List.not_mem_nil i))
    (by show (0 : ℕ) = nMiss 4 12.5
        norm_num [nMiss, ratTrunc])).1

/-- Claim C4 counterexample: a draw record for `N = 2400` whose base
glucose sample (300 indices, the exact size the rule dictates) overlaps
the MAR-condition rows; the total missing count is 300, not
`300 + 1` as the claim's sum of the base count and all MAR-condition rows
would require. -/
theorem claim_C4_counterexample :
    d4.glucoseMissIdx.Nodup
    ∧ (∀ i ∈ d4.glucoseMissIdx, i < 2400)
    ∧ d4.glucoseMissIdx.length = nMiss 2400 12.5
    ∧ missingCount (generate 2400 d4) Col.glucose
        ≠ nMiss 2400 12.5 + (List.range 2400).countP (marMask d4) := by
  have hidx : d4.glucoseMissIdx = List.range 300 := by simp [d4]
  refine ⟨?_, ?_, ?_, ?_⟩
  · rw [hidx]
    exact List.nodup_range 300
  · intro i hi
    rw [hidx] at hi
    have := List.mem_range.mp hi
    omega
  · rw [hidx, List.length_range]
    (norm_num [nMiss, ratTrunc]; rfl)
  · -- left side: the union of base and MAR sets has 300 elements
    have hmar : ∀ i, marMask d4 i = decide (i = 0) := by
      intro i
      rfl
    have hL : missingCount (generate 2400 d4) Col.glucose = 300 := by
      rw [countGlucoseMissing 2400 d4]
      have step2 : (List.range 2400).countP
          (fun i => decide (i ∈ d4.glucoseMissIdx) || marMask d4 i)
          = (List.range 2400).countP (fun i => decide (i < 300)) := by
        apply List.countP_congr
        intro i _
        rw [hidx, hmar i]
        constructor
        · intro h
          rcases Bool.or_eq_true_iff.mp h with h | h
          · simpa using List.mem_range.mp (of_decide_eq_true h)
          · have : i = 0 := of_decide_eq_true h
            simp [this]
        · intro h
          have : i < 300 := of_decide_eq_true h
          exact Bool.or_eq_true_iff.mpr (Or.inl (decide_eq_true (List.mem_range.mpr this)))
      rw [step2]
      have hsplit : List.range 2400
          = List.range 300 ++ (List.range 2100).map (300 + ·) :=
        List.range_add 300 2100
      rw [hsplit, List.countP_append, List.countP_map]
      have c1 : (List.range 300).countP (fun i => decide (i < 300))
          = (List.range 300).length :=
        List.countP_eq_length.mpr fun a ha =>
          decide_eq_true (List.mem_range.mp ha)
      have c2 : (List.range 2100).countP
          ((fun i => decide (i < 300)) ∘ (300 + ·)) = 0 :=
        List.countP_eq_zero.mpr fun a _ => by simp
      rw [c1, c2, List.length_range]
    have hR : (List.range 2400).countP (marMask d4) = 1 := by
      have : (List.range 2400).countP (marMask d4)
          = (List.range 2400).countP (fun i => decide (i = 0)) :=
        List.countP_congr fun a _ => by rw [hmar a]
      rw [this, List.range_succ_eq_map, List.countP_cons, List.countP_map]
      have : (List.range 2399).countP ((fun i => decide (i = 0)) ∘ Nat.succ) = 0 :=
        List.countP_eq_zero.mpr fun a _ => by simp
      rw [this]
      simp
    have h300 : nMiss 2400 12.5 = 300 := by
      (norm_num [nMiss, ratTrunc]; rfl)
    rw [hL, hR, h300]
    omega

/-- Claim C6: the assembled table has exactly 2400 rows in every column
and exactly 37 columns in the documented order starting with
`subject_id` and `hadm_id`; both id columns hold consecutive integers
(starting at 100001 and 200001), are strictly increasing, and are
therefore unique. -/
theorem claim_C6_table_shape (d : Draws) :
    columns.length = 37
    ∧ columns[0]? = some Col.subjectId
    ∧ columns[1]? = some Col.hadmId
    ∧ (∀ c : Col, colLength (generate 2400 d) c = 2400)
    ∧ (∀ i : ℕ, i < 2400 →
        (generate 2400 d).subject_id[i]? = some (100001 + i)
        ∧ (generate 2400 d).hadm_id[i]? = some (200001 + i))
    ∧ List.Pairwise (fun a b => a < b) (generate 2400 d).subject_id
    ∧ List.Pairwise (fun a b => a < b) (generate 2400 d).hadm_id
    ∧ (generate 2400 d).subject_id.Nodup
    ∧ (generate 2400 d).hadm_id.Nodup := by
  have hsub : (generate 2400 d).subject_id
      = (List.range 2400).map (fun i => 100001 + i) := by simp [generate]
  have hhad : (generate 2400 d).hadm_id
      = (List.range 2400).map (fun i => 200001 + i) := by simp [generate]
  have hpair : ∀ k : ℕ,
      ((List.range 2400).map (fun i => k + i)).Pairwise (fun a b => a < b) :=
    fun k => List.Pairwise.map _ (fun a b hab => by omega)
      (List.pairwise_lt_range 2400)
  refine ⟨rfl, rfl, rfl, ?_, ?_, ?_, ?_, ?_, ?_⟩
  · intro c
    cases c <;>
      simp [colLength, generate, add_missing, applyMask, List.length_mapIdx]
  · intro i hi
    rw [hsub, hhad]
    constructor <;> simp [List.getElem?_map, List.getElem?_range hi]
  · rw [hsub]
    exact hpair 100001
  · rw [hhad]
    exact hpair 200001
  · rw [hsub]
    exact (hpair 100001).imp Nat.ne_of_lt
  · rw [hhad]
    exact (hpair 200001).imp Nat.ne_of_lt

/-- Claim C6 witness: in a concrete generated table the first row's
subject and admission ids are 100001 and 200001. -/
theorem claim_C6_witness :
    (generate 2400 d0).subject_id[0]? = some (100001 + 0)
    ∧ (generate 2400 d0).hadm_id[0]? = some (200001 + 0) :=
  (claim_C6_table_shape d0).2.2.2.2.1 0 (by norm_num)

/-- Claim C8: the pipeline is deterministic in the sampled values — two
runs whose per-call-site random draws coincide produce identical tables;
the generator takes no input other than the draw record (seeded once at
line 15) and the compile-time constants. -/
theorem claim_C8_determinism (n : ℕ) (d e : Draws)
    (h1 : d.ageDraw = e.ageDraw)
    (h2 : d.genderDraw = e.genderDraw)
    (h3 : d.raceDraw = e.raceDraw)
    (h4 : d.insuranceDraw = e.insuranceDraw)
    (h5 : d.maritalDraw = e.maritalDraw)
    (h6 : d.losDraw = e.losDraw)
    (h7 : d.admissionTypeDraw = e.admissionTypeDraw)
    (h8 : d.priorZeroDraw = e.priorZeroDraw)
    (h9 : d.priorPoisDraw = e.priorPoisDraw)
    (h10 : d.hadIcuDraw = e.hadIcuDraw)
    (h11 : d.icuLosDraw = e.icuLosDraw)
    (h12 : d.numDiagnosesDraw = e.numDiagnosesDraw)
    (h13 : d.dxCerebralDraw = e.dxCerebralDraw)
    (h14 : d.dxIchDraw = e.dxIchDraw)
    (h15 : d.dxEpilepsyDraw = e.dxEpilepsyDraw)
    (h16 : d.dxParkinsonDraw = e.dxParkinsonDraw)
    (h17 : d.dxAlzheimerDraw = e.dxAlzheimerDraw)
    (h18 : d.dxMsDraw = e.dxMsDraw)
    (h19 : d.dxDiabetesDraw = e.dxDiabetesDraw)
    (h20 : d.dxChfDraw = e.dxChfDraw)
    (h21 : d.dxCopdDraw = e.dxCopdDraw)
    (h22 : d.dxCkdDraw = e.dxCkdDraw)
    (h23 : d.creatinineDraw = e.creatinineDraw)
    (h24 : d.hgbFemaleDraw = e.hgbFemaleDraw)
    (h25 : d.hgbMaleDraw = e.hgbMaleDraw)
    (h26 : d.wbcDraw = e.wbcDraw)
    (h27 : d.glucoseDraw = e.glucoseDraw)
    (h28 : d.sodiumDraw = e.sodiumDraw)
    (h29 : d.potassiumDraw = e.potassiumDraw)
    (h30 : d.bunNoiseDraw = e.bunNoiseDraw)
    (h31 : d.plateletDraw = e.plateletDraw)
    (h32 : d.numMedsDraw = e.numMedsDraw)
    (h33 : d.anticoagDraw = e.anticoagDraw)
    (h34 : d.statinDraw = e.statinDraw)
    (h35 : d.insulinYesDraw = e.insulinYesDraw)
    (h36 : d.insulinNoDraw = e.insulinNoDraw)
    (h37 : d.aedYesDraw = e.aedYesDraw)
    (h38 : d.aedNoDraw = e.aedNoDraw)
    (h39 : d.readmitDraw = e.readmitDraw)
    (h40 : d.creatinineMissIdx = e.creatinineMissIdx)
    (h41 : d.hemoglobinMissIdx = e.hemoglobinMissIdx)
    (h42 : d.wbcMissIdx = e.wbcMissIdx)
    (h43 : d.glucoseMissIdx = e.glucoseMissIdx)
    (h44 : d.sodiumMissIdx = e.sodiumMissIdx)
    (h45 : d.potassiumMissIdx = e.potassiumMissIdx)
    (h46 : d.bunMissIdx = e.bunMissIdx)
    (h47 : d.plateletMissIdx = e.plateletMissIdx)
    (h48 : d.numMedsMissIdx = e.numMedsMissIdx)
    (h49 : d.marDraw = e.marDraw) :
    generate n d = generate n e := by
  have hde : d = e := by
    cases d
    cases e
    congr 1
  rw [hde]

/-- Claim C8 witness: applying determinism at a concrete draw record. -/
theorem claim_C8_witness : generate 2400 d0 = generate 2400 d0 :=
  claim_C8_determinism 2400 d0 d0 rfl rfl rfl rfl rfl rfl rfl rfl rfl rfl
    rfl rfl rfl rfl rfl rfl rfl rfl rfl rfl rfl rfl rfl rfl rfl rfl rfl
    rfl rfl rfl rfl rfl rfl rfl rfl rfl rfl rfl rfl rfl rfl rfl rfl rfl rfl
    rfl rfl rfl rfl

end Cohort
